import Mathlib

/-!
Verification of the LightScene reconciliation core.

Shallow embedding of `custom_components/lightscene/light.py`: the brightness
scaler computed in `LightScene.__init__` and `async_turn_on`, the causation
tracker used by `async_process_state_changed_event`, and the reproduction
controller (`_cancel_in_flight`, `_drain_reproduce_task`, `_start_reproduce`)
together with the entity state machine (`async_turn_on`, `async_turn_off`,
`async_process_scene_activation_event`).

Machine integers are modeled as `Nat`; the Python float expression
`int(initial_brightness * (target / baseline))` is modeled as exact rational
truncation `initial * target / baseline` in `Nat` (floor division).
Asynchronous execution is modeled as an explicit small-step operation model:
each coroutine is split at its await points, operations emit traces of atomic
actions (`Act`), and interleaving with an in-flight reproduction is captured
by running an operation from the suspended state another operation left
behind.
-/

namespace Lightscene

/-- The declared target of one member entity in a scene snapshot (one value of
`scene_config.states` in `light.py`): state token, the optional `brightness`
attribute, and the remaining attributes, opaque to the core. -/
structure SceneTarget where
  state : String
  brightness : Option Nat
  otherAttrs : List (String × String)
deriving DecidableEq, Repr

/-- A scene snapshot: the ordered mapping `scene_config.states` from member
entity id to its declared target. -/
structure SceneConfig where
  states : List (String × SceneTarget)
deriving DecidableEq, Repr

/-- Source: `DEFAULT_BRIGHTNESS = 255` in `light.py`. -/
def DEFAULT_BRIGHTNESS : Nat := 255

/-- Source: `REPRODUCE_TIMEOUT_SECONDS = 60` in `light.py`. -/
def REPRODUCE_TIMEOUT_SECONDS : Nat := 60

/-- Source: `STATE_ON` from `homeassistant.const`. -/
def STATE_ON : String := "on"

/-- Source: `STATE_OFF` from `homeassistant.const`. -/
def STATE_OFF : String := "off"

/-- Source: `entity_id.startswith("light.")`, stated on the underlying character list
so that concrete instances evaluate in the kernel. -/
def isLight (entity_id : String) : Bool :=
  "light.".toList.isPrefixOf entity_id.toList

/-- The per-entity baseline brightness computed in `LightScene.__init__`:
`brightness = state.attributes.get(ATTR_BRIGHTNESS)`, and if that is `None`,
`255 if state.state == STATE_ON else 0`. -/
def declaredBrightness (t : SceneTarget) : Nat :=
  match t.brightness with
  | some b => b
  | none => if t.state = STATE_ON then 255 else 0

/-- Source: `self._scene_brightness_levels`: for every member whose id is a light, its
per-entity baseline. -/
def sceneBrightnessLevels (sc : SceneConfig) : List (String × Nat) :=
  (sc.states.filter (fun p => isLight p.1)).map (fun p => (p.1, declaredBrightness p.2))

/-- Source: `scene_brightness_values`: the baselines of lights declared `on` with
brightness greater than zero. -/
def sceneBrightnessValues (sc : SceneConfig) : List Nat :=
  ((sc.states.filter
      (fun p => isLight p.1 && p.2.state == STATE_ON && decide (0 < declaredBrightness p.2))).map
    (fun p => declaredBrightness p.2))

/-- Source: `self._scene_brightness`: floor average of `scene_brightness_values`, or
`DEFAULT_BRIGHTNESS` when that list is empty. -/
def sceneBrightness (sc : SceneConfig) : Nat :=
  if (sceneBrightnessValues sc).isEmpty then DEFAULT_BRIGHTNESS
  else (sceneBrightnessValues sc).sum / (sceneBrightnessValues sc).length

/-- Source: `self._has_brightness_control`. -/
def hasBrightnessControl (sc : SceneConfig) : Bool :=
  !(sceneBrightnessValues sc).isEmpty

/-- Source: `self._scene_brightness_levels.get(entity_id, 0)`. -/
def levelFor (sc : SceneConfig) (entity_id : String) : Nat :=
  match (sceneBrightnessLevels sc).lookup entity_id with
  | some b => b
  | none => 0

/-- One target state handed to `async_reproduce_state` (a `State` object in
`light.py`). -/
structure TargetState where
  entity_id : String
  state : String
  brightness : Option Nat
  otherAttrs : List (String × String)
deriving DecidableEq, Repr

/-- Source: `scaled_brightness = int(initial_brightness * scale_factor)` followed by
`max(1, min(255, scaled_brightness))`, with `scale_factor = target / baseline`;
the float product and truncation are modeled as exact rational truncation,
which is `Nat` floor division. -/
def scaledBrightness (initial target baseline : Nat) : Nat :=
  max 1 (min 255 (initial * target / baseline))

/-- Source: `states_to_reproduce` as built by `async_turn_on`: lights with a positive
per-entity baseline get the scaled brightness written into a copy of their
attributes; every other member keeps its declared state and attributes. -/
def turnOnTargets (sc : SceneConfig) (target_brightness : Nat) : List TargetState :=
  sc.states.map (fun p =>
    if hasBrightnessControl sc && isLight p.1 && decide (0 < levelFor sc p.1) then
      { entity_id := p.1, state := p.2.state,
        brightness :=
          some (scaledBrightness (levelFor sc p.1) target_brightness (sceneBrightness sc)),
        otherAttrs := p.2.otherAttrs }
    else
      { entity_id := p.1, state := p.2.state, brightness := p.2.brightness,
        otherAttrs := p.2.otherAttrs })

/-- Source: `off_states` as built by `async_turn_off`: `State(entity_id, STATE_OFF, {})`
for every member. -/
def turnOffTargets (sc : SceneConfig) : List TargetState :=
  sc.states.map (fun p =>
    { entity_id := p.1, state := STATE_OFF, brightness := none, otherAttrs := [] })

/-- The mutable per-entity state of a `LightScene`. Causation contexts and
reproduce tasks are identified by freshly allocated `Nat` ids.
`busy_set` models `self._busy_reproducing_states.is_set()` (`true` means the
gate is open, no reproduction in flight); `reproduce_task` models
`self._reproduce_task`. -/
structure LS where
  is_on : Bool
  brightness : Nat
  context : Option Nat
  internal_contexts : List Nat
  busy_set : Bool
  reproduce_task : Option Nat
  next_task_id : Nat
  next_ctx_id : Nat
deriving DecidableEq, Repr

/-- The state built by `LightScene.__init__`: off, brightness at the scene
baseline, no contexts, the busy event set, no reproduce task. -/
def initLS (sc : SceneConfig) : LS :=
  { is_on := false
    brightness := sceneBrightness sc
    context := none
    internal_contexts := []
    busy_set := true
    reproduce_task := none
    next_task_id := 0
    next_ctx_id := 0 }

/-- Atomic observable actions emitted by the model of the asynchronous code. -/
inductive Act where
  | cancelDrain (task : Nat)
  | taskEnd (task : Nat)
  | gateWait
  | publish (is_on : Bool) (brightness : Nat)
  | taskStart (task : Nat) (label : String) (targets : List TargetState)
  | awaitTimeout (seconds : Nat)
  | timeoutWarning
deriving DecidableEq, Repr

/-- Source: `LightScene._cancel_in_flight` composed with `_drain_reproduce_task`: when a
reproduce task is in flight it is cancelled and awaited; the cancelled owner
coroutine (suspended in `asyncio.wait_for`) is woken first, its
`except asyncio.CancelledError` branch returns because `_cancelled_reproduce`
is set, and its `finally` block clears `_reproduce_task`, resets the flag and
sets the busy event; `_cancel_in_flight` then also sets the busy event. -/
def cancelInFlight (s : LS) : LS × List Act :=
  match s.reproduce_task with
  | none => (s, [])
  | some t =>
      ({ s with reproduce_task := none, busy_set := true },
       [Act.cancelDrain t, Act.taskEnd t])

/-- Source: `LightScene._set_off`: clear `is_on` and the self-caused context set and
publish state; the active context is kept. -/
def setOff (s : LS) : LS :=
  { s with is_on := false, internal_contexts := [] }

/-- The `internal` flag computed in `async_process_state_changed_event`: the
event context id equals the active context id, or is in the accumulated
self-caused set. -/
def isInternal (s : LS) (tag : Nat) : Bool :=
  (match s.context with
   | some c => c == tag
   | none => false) || s.internal_contexts.contains tag

/-- Source: `LightScene.async_process_state_changed_event`. The event carries
`new_state`, which may be absent, and whose context may be absent. Returns the
new state and the trace of publishes. -/
def processStateChanged (s : LS) (new_state : Option (Option Nat)) : LS × List Act :=
  if !s.busy_set || !s.is_on then (s, [])
  else
    match new_state with
    | none => (s, [])
    | some none => (s, [])
    | some (some tag) =>
        if isInternal s tag then (s, [])
        else (setOff s, [Act.publish false s.brightness])

/-- Source: `LightScene.async_process_scene_activation_event` for an event whose
context id is `tag`: wait for the busy gate (`none` models the handler staying
blocked on it), adopt the context as active and self-caused, turn on at
baseline brightness and publish; no reproduction is started. An event without
a context returns immediately. -/
def processSceneActivation (sc : SceneConfig) (s : LS) (tag : Option Nat) :
    Option (LS × List Act) :=
  match tag with
  | none => some (s, [])
  | some t =>
      if s.busy_set then
        some
          ({ s with
              context := some t
              internal_contexts := t :: s.internal_contexts
              is_on := true
              brightness := sceneBrightness sc },
           [Act.gateWait, Act.publish true (sceneBrightness sc)])
      else none

/-- Minting of the fresh causation context at the top of `async_turn_on`
(`Context(...)`, `self._context = new_context`,
`self._internal_contexts.add(new_context.id)`). -/
def mintContext (s : LS) : LS :=
  { s with
      context := some s.next_ctx_id
      internal_contexts := s.next_ctx_id :: s.internal_contexts
      next_ctx_id := s.next_ctx_id + 1 }

/-- Source: `LightScene.async_turn_on` up to the suspension point inside
`_start_reproduce` (`asyncio.wait_for`): cancel and drain any in-flight task,
wait for the busy gate (`none` models blocking on an unset gate with nothing
to set it), mint the context, resolve the requested brightness, set
`_brightness` when brightness-capable, set `is_on` and publish, then clear the
busy event and start the reproduce task. -/
def turnOnStart (sc : SceneConfig) (s : LS) (request : Option Nat) :
    Option (LS × List Act) :=
  let (s1, t1) := cancelInFlight s
  if s1.busy_set then
    let s2 := mintContext s1
    let target :=
      match request with
      | some b => b
      | none => sceneBrightness sc
    let s3 := if hasBrightnessControl sc then { s2 with brightness := target } else s2
    let s4 := { s3 with is_on := true }
    let s5 :=
      { s4 with
          busy_set := false
          reproduce_task := some s4.next_task_id
          next_task_id := s4.next_task_id + 1 }
    some (s5,
      t1 ++ [Act.gateWait, Act.publish true s4.brightness,
             Act.taskStart s4.next_task_id "states" (turnOnTargets sc target),
             Act.awaitTimeout REPRODUCE_TIMEOUT_SECONDS])
  else none

/-- Source: `LightScene.async_turn_off` up to the suspension point inside
`_start_reproduce`: cancel and drain any in-flight task, wait for the busy
gate, `_set_off` (publish), then clear the busy event and start the
off-states reproduce task. -/
def turnOffStart (sc : SceneConfig) (s : LS) : Option (LS × List Act) :=
  let (s1, t1) := cancelInFlight s
  if s1.busy_set then
    let s2 := setOff s1
    let s3 :=
      { s2 with
          busy_set := false
          reproduce_task := some s2.next_task_id
          next_task_id := s2.next_task_id + 1 }
    some (s3,
      t1 ++ [Act.gateWait, Act.publish false s2.brightness,
             Act.taskStart s2.next_task_id "off states" (turnOffTargets sc),
             Act.awaitTimeout REPRODUCE_TIMEOUT_SECONDS])
  else none

/-- How a reproduce task awaited by its own `turn_on`/`turn_off` invocation
ends when it is not superseded: normal completion, or `asyncio.TimeoutError`
after `REPRODUCE_TIMEOUT_SECONDS`. -/
inductive Outcome where
  | completed
  | timedOut
deriving DecidableEq, Repr

/-- Resumption of the suspended invocation after `asyncio.wait_for`: on
completion the `finally` block clears `_reproduce_task` and sets the busy
event; on timeout a warning is logged and `_drain_reproduce_task` cancels and
awaits the task first. The optimistically published entity state is not
touched. -/
def finishReproduce (s : LS) (o : Outcome) : LS × List Act :=
  match s.reproduce_task with
  | none => (s, [])
  | some t =>
      match o with
      | Outcome.completed =>
          ({ s with reproduce_task := none, busy_set := true }, [Act.taskEnd t])
      | Outcome.timedOut =>
          ({ s with reproduce_task := none, busy_set := true },
           [Act.timeoutWarning, Act.taskEnd t])

/-- A complete `async_turn_on` invocation whose reproduction is not superseded. -/
def turnOnFull (sc : SceneConfig) (s : LS) (request : Option Nat) (o : Outcome) :
    Option (LS × List Act) :=
  match turnOnStart sc s request with
  | none => none
  | some (s1, t1) =>
      let (s2, t2) := finishReproduce s1 o
      some (s2, t1 ++ t2)

/-- A complete `async_turn_off` invocation whose reproduction is not superseded. -/
def turnOffFull (sc : SceneConfig) (s : LS) (o : Outcome) : Option (LS × List Act) :=
  match turnOffStart sc s with
  | none => none
  | some (s1, t1) =>
      let (s2, t2) := finishReproduce s1 o
      some (s2, t1 ++ t2)

/-- The operations of the interleaving model. `onPart`/`offPart` leave the
invocation suspended with its reproduce task in flight, to be superseded (or
observed) by the next operation. -/
inductive Op where
  | onFull (request : Option Nat) (o : Outcome)
  | onPart (request : Option Nat)
  | offFull (o : Outcome)
  | offPart
  | stateEvent (new_state : Option (Option Nat))
  | sceneActivated (tag : Option Nat)
deriving DecidableEq, Repr

/-- Run one operation. -/
def runOp (sc : SceneConfig) (s : LS) : Op → Option (LS × List Act)
  | Op.onFull request o => turnOnFull sc s request o
  | Op.onPart request => turnOnStart sc s request
  | Op.offFull o => turnOffFull sc s o
  | Op.offPart => turnOffStart sc s
  | Op.stateEvent new_state => some (processStateChanged s new_state)
  | Op.sceneActivated tag => processSceneActivation sc s tag

/-- Run a sequence of operations, concatenating their traces. -/
def runOps (sc : SceneConfig) : LS → List Op → Option (LS × List Act)
  | s, [] => some (s, [])
  | s, op :: ops =>
      match runOp sc s op with
      | none => none
      | some (s1, t1) =>
          match runOps sc s1 ops with
          | none => none
          | some (s2, t2) => some (s2, t1 ++ t2)

/-- Reachable-state invariant: the busy event is set exactly when no reproduce
task is in flight. -/
def good (s : LS) : Prop := s.busy_set = s.reproduce_task.isNone

instance (s : LS) : Decidable (good s) := by unfold good; infer_instance

/-- The number of reproduce tasks a state holds in flight. -/
def pending (s : LS) : Int := if s.reproduce_task.isSome then 1 else 0

/-- Contribution of one action to the number of in-flight reproductions. -/
def delta : Act → Int
  | Act.taskStart _ _ _ => 1
  | Act.taskEnd _ => -1
  | _ => 0

/-- Total contribution of a trace. -/
def sumDelta (t : List Act) : Int := (t.map delta).sum

/-- Starting from `n` tasks in flight, the trace never has more than one
reproduction in flight at any instant. -/
def okFrom (n : Int) : List Act → Prop
  | [] => True
  | a :: t => n + delta a ≤ 1 ∧ okFrom (n + delta a) t

/-- Is the action the start of a reproduce task? -/
def isTaskStart : Act → Bool
  | Act.taskStart _ _ _ => true
  | _ => false

/-- Is the action a state publication (`async_write_ha_state`)? -/
def isPublish : Act → Bool
  | Act.publish _ _ => true
  | _ => false

/-- Every publish of flag `flag` happens strictly before every reproduce-task
start in the trace: each `taskStart` has a `publish flag _` at a smaller index. -/
def publishBeforeStart (t : List Act) (flag : Bool) : Prop :=
  ∀ (j : Nat) (a : Act), t[j]? = some a → isTaskStart a = true →
    ∃ (i : Nat) (b : Nat), i < j ∧ t[i]? = some (Act.publish flag b)

/-- Platform well-formedness of a snapshot: declared `brightness` attributes
are at most 255. -/
def validScene (sc : SceneConfig) : Prop :=
  ∀ p ∈ sc.states, ∀ b ∈ p.2.brightness, b ≤ 255

instance (sc : SceneConfig) : Decidable (validScene sc) := by
  unfold validScene
  infer_instance

/-- Platform well-formedness of an operation: a requested brightness passed to
`turn_on` is in the platform range 1–255. -/
def validOp : Op → Prop
  | Op.onFull (some b) _ => 1 ≤ b ∧ b ≤ 255
  | Op.onPart (some b) => 1 ≤ b ∧ b ≤ 255
  | _ => True

instance : (op : Op) → Decidable (validOp op)
  | Op.onFull none _ => Decidable.isTrue trivial
  | Op.onFull (some b) _ => inferInstanceAs (Decidable (1 ≤ b ∧ b ≤ 255))
  | Op.onPart none => Decidable.isTrue trivial
  | Op.onPart (some b) => inferInstanceAs (Decidable (1 ≤ b ∧ b ≤ 255))
  | Op.offFull _ => Decidable.isTrue trivial
  | Op.offPart => Decidable.isTrue trivial
  | Op.stateEvent _ => Decidable.isTrue trivial
  | Op.sceneActivated _ => Decidable.isTrue trivial

/-- A two-light scene: `light.a` on at brightness 100 and `light.b` on at
brightness 200, so the baseline is 150. -/
def demoScene : SceneConfig :=
  { states :=
      [("light.a", { state := "on", brightness := some 100, otherAttrs := [] }),
       ("light.b", { state := "on", brightness := some 200, otherAttrs := [] })] }

/-- Modelled from the claim's `round(per-entity baseline × factor)`: standard
rounding of the exact rational `initial * (target / baseline)`. -/
def specRoundScaled (initial target baseline : Nat) : ℤ :=
  ⌊(initial * target : ℚ) / baseline + 1 / 2⌋

theorem cancelInFlight_task (s : LS) : (cancelInFlight s).1.reproduce_task = none := by
  cases h : s.reproduce_task <;> simp [cancelInFlight, h]

theorem cancelInFlight_busy (s : LS) (h : good s) :
    (cancelInFlight s).1.busy_set = true := by
  cases ht : s.reproduce_task <;>
    simp_all [cancelInFlight, good, ht, Option.isNone]

theorem cancelInFlight_good (s : LS) (h : good s) : good (cancelInFlight s).1 := by
  unfold good
  rw [cancelInFlight_task, cancelInFlight_busy s h]
  rfl

theorem cancelInFlight_is_on (s : LS) : (cancelInFlight s).1.is_on = s.is_on := by
  cases h : s.reproduce_task <;> simp [cancelInFlight, h]

theorem cancelInFlight_brightness (s : LS) :
    (cancelInFlight s).1.brightness = s.brightness := by
  cases h : s.reproduce_task <;> simp [cancelInFlight, h]

theorem sumDelta_cons (a : Act) (t : List Act) :
    sumDelta (a :: t) = delta a + sumDelta t := by
  simp [sumDelta]

theorem okFrom_append (n : Int) (t u : List Act) :
    okFrom n (t ++ u) ↔ okFrom n t ∧ okFrom (n + sumDelta t) u := by
  induction t generalizing n with
  | nil => simp [okFrom, sumDelta]
  | cons a t ih =>
      show (n + delta a ≤ 1 ∧ okFrom (n + delta a) (t ++ u)) ↔
        (n + delta a ≤ 1 ∧ okFrom (n + delta a) t) ∧ okFrom (n + sumDelta (a :: t)) u
      rw [ih, sumDelta_cons]
      constructor
      · rintro ⟨h1, h2, h3⟩
        refine ⟨⟨h1, h2⟩, ?_⟩
        have heq : n + (delta a + sumDelta t) = n + delta a + sumDelta t := by ring
        rw [heq]
        exact h3
      · rintro ⟨⟨h1, h2⟩, h3⟩
        refine ⟨h1, h2, ?_⟩
        have heq : n + delta a + sumDelta t = n + (delta a + sumDelta t) := by ring
        rw [heq]
        exact h3

theorem sumDelta_append (t u : List Act) :
    sumDelta (t ++ u) = sumDelta t + sumDelta u := by
  simp [sumDelta]

/-- Every value collected into `scene_brightness_values` is positive, and
bounded by 255 in a platform-valid snapshot. -/
theorem sceneBrightnessValues_bounds (sc : SceneConfig) (hv : validScene sc) :
    ∀ v ∈ sceneBrightnessValues sc, 1 ≤ v ∧ v ≤ 255 := by
  intro v hvmem
  simp only [sceneBrightnessValues, List.mem_map, List.mem_filter] at hvmem
  obtain ⟨p, ⟨hmem, hcond⟩, hmap⟩ := hvmem
  have hpos : 0 < declaredBrightness p.2 := by
    simp only [Bool.and_eq_true, decide_eq_true_eq] at hcond
    exact hcond.2
  subst hmap
  refine ⟨hpos, ?_⟩
  unfold declaredBrightness at *
  cases hb : p.2.brightness with
  | some b => exact hv p hmem b (Option.mem_def.mpr hb)
  | none =>
      simp only [hb]
      split <;> omega

theorem sceneBrightnessValues_pos (sc : SceneConfig) :
    ∀ v ∈ sceneBrightnessValues sc, 1 ≤ v := by
  intro v hvmem
  simp only [sceneBrightnessValues, List.mem_map, List.mem_filter] at hvmem
  obtain ⟨p, ⟨hmem, hcond⟩, hmap⟩ := hvmem
  simp only [Bool.and_eq_true, decide_eq_true_eq] at hcond
  omega

theorem length_le_sum_of_one_le (l : List Nat) (h : ∀ v ∈ l, 1 ≤ v) :
    l.length ≤ l.sum := by
  induction l with
  | nil => simp
  | cons a l ih =>
      have ha := h a (by simp)
      have hl := ih (fun v hv => h v (by simp [hv]))
      simp only [List.length_cons, List.sum_cons]
      omega

theorem sum_le_mul_length (l : List Nat) (n : Nat) (h : ∀ v ∈ l, v ≤ n) :
    l.sum ≤ n * l.length := by
  induction l with
  | nil => simp
  | cons a l ih =>
      have ha := h a (by simp)
      have hl := ih (fun v hv => h v (by simp [hv]))
      simp only [List.length_cons, List.sum_cons, Nat.mul_add, Nat.mul_one]
      omega

/-- When the scene is brightness-capable, `self._scene_brightness` is positive. -/
theorem sceneBrightness_pos (sc : SceneConfig) (h : hasBrightnessControl sc = true) :
    0 < sceneBrightness sc := by
  unfold hasBrightnessControl at h
  unfold sceneBrightness
  cases hE : (sceneBrightnessValues sc).isEmpty with
  | true => rw [hE] at h; simp at h
  | false =>
      simp only [hE, Bool.false_eq_true, if_false]
      have hnil : sceneBrightnessValues sc ≠ [] := by
        intro hn
        rw [hn] at hE
        simp at hE
      have hlen : 0 < (sceneBrightnessValues sc).length := List.length_pos.mpr hnil
      have hsum : (sceneBrightnessValues sc).length ≤ (sceneBrightnessValues sc).sum :=
        length_le_sum_of_one_le _ (sceneBrightnessValues_pos sc)
      have := (Nat.le_div_iff_mul_le hlen).mpr (by omega :
        1 * (sceneBrightnessValues sc).length ≤ (sceneBrightnessValues sc).sum)
      omega

/-- In a platform-valid snapshot, `self._scene_brightness` lies in `[1, 255]`. -/
theorem sceneBrightness_bounds (sc : SceneConfig) (hv : validScene sc) :
    1 ≤ sceneBrightness sc ∧ sceneBrightness sc ≤ 255 := by
  unfold sceneBrightness
  cases hE : (sceneBrightnessValues sc).isEmpty with
  | true => simp [DEFAULT_BRIGHTNESS]
  | false =>
      simp only [hE, Bool.false_eq_true, if_false]
      have hnil : sceneBrightnessValues sc ≠ [] := by
        intro hn
        rw [hn] at hE
        simp at hE
      have hlen : 0 < (sceneBrightnessValues sc).length := List.length_pos.mpr hnil
      have hb := sceneBrightnessValues_bounds sc hv
      have hsum : (sceneBrightnessValues sc).length ≤ (sceneBrightnessValues sc).sum :=
        length_le_sum_of_one_le _ (fun v hvm => (hb v hvm).1)
      have hup : (sceneBrightnessValues sc).sum ≤ 255 * (sceneBrightnessValues sc).length :=
        sum_le_mul_length _ 255 (fun v hvm => (hb v hvm).2)
      constructor
      · exact (Nat.le_div_iff_mul_le hlen).mpr (by omega)
      · calc (sceneBrightnessValues sc).sum / (sceneBrightnessValues sc).length
            ≤ 255 * (sceneBrightnessValues sc).length / (sceneBrightnessValues sc).length :=
              Nat.div_le_div_right hup
          _ = 255 := Nat.mul_div_cancel 255 hlen

theorem turnOnStart_spec (sc : SceneConfig) (s : LS) (request : Option Nat)
    (s1 : LS) (t1 : List Act) (hg : good s)
    (h : turnOnStart sc s request = some (s1, t1)) :
    good s1 ∧ okFrom (pending s) t1 ∧ pending s + sumDelta t1 = pending s1 ∧
    s1.is_on = true ∧
    (validScene sc → (∀ b, request = some b → 1 ≤ b ∧ b ≤ 255) →
      1 ≤ s.brightness → s.brightness ≤ 255 →
      1 ≤ s1.brightness ∧ s1.brightness ≤ 255) := by
  cases hrt : s.reproduce_task with
  | none =>
      have hb : s.busy_set = true := by
        unfold good at hg
        rw [hrt] at hg
        simpa using hg
      rw [turnOnStart.eq_def] at h
      simp only [cancelInFlight, hrt, hb, if_true] at h
      cases hbc : hasBrightnessControl sc with
      | true =>
          simp only [hbc, if_true] at h
          obtain ⟨hs, ht⟩ := Prod.mk.injEq .. ▸ (Option.some.injEq .. ▸ h)
          subst hs ht
          refine ⟨by simp [good, mintContext], ?_, ?_, by simp [mintContext], ?_⟩
          · simp [okFrom, pending, hrt, delta, mintContext]
          · simp [sumDelta, pending, hrt, delta, mintContext]
          · intro hv hreq _ _
            cases request with
            | none => simpa [mintContext] using sceneBrightness_bounds sc hv
            | some b => simpa [mintContext] using hreq b rfl
      | false =>
          simp only [hbc, Bool.false_eq_true, if_false] at h
          obtain ⟨hs, ht⟩ := Prod.mk.injEq .. ▸ (Option.some.injEq .. ▸ h)
          subst hs ht
          refine ⟨by simp [good, mintContext], ?_, ?_, by simp [mintContext], ?_⟩
          · simp [okFrom, pending, hrt, delta, mintContext]
          · simp [sumDelta, pending, hrt, delta, mintContext]
          · intro _ _ h1 h2
            simpa [mintContext] using ⟨h1, h2⟩
  | some tk =>
      rw [turnOnStart.eq_def] at h
      simp only [cancelInFlight, hrt] at h
      cases hbc : hasBrightnessControl sc with
      | true =>
          simp only [hbc, if_true] at h
          obtain ⟨hs, ht⟩ := Prod.mk.injEq .. ▸ (Option.some.injEq .. ▸ h)
          subst hs ht
          refine ⟨by simp [good, mintContext], ?_, ?_, by simp [mintContext], ?_⟩
          · simp [okFrom, pending, hrt, delta, mintContext]
          · simp [sumDelta, pending, hrt, delta, mintContext]
          · intro hv hreq _ _
            cases request with
            | none => simpa [mintContext] using sceneBrightness_bounds sc hv
            | some b => simpa [mintContext] using hreq b rfl
      | false =>
          simp only [hbc, Bool.false_eq_true, if_false] at h
          obtain ⟨hs, ht⟩ := Prod.mk.injEq .. ▸ (Option.some.injEq .. ▸ h)
          subst hs ht
          refine ⟨by simp [good, mintContext], ?_, ?_, by simp [mintContext], ?_⟩
          · simp [okFrom, pending, hrt, delta, mintContext]
          · simp [sumDelta, pending, hrt, delta, mintContext]
          · intro _ _ h1 h2
            simpa [mintContext] using ⟨h1, h2⟩

theorem turnOffStart_spec (sc : SceneConfig) (s : LS) (s1 : LS) (t1 : List Act)
    (hg : good s) (h : turnOffStart sc s = some (s1, t1)) :
    good s1 ∧ okFrom (pending s) t1 ∧ pending s + sumDelta t1 = pending s1 ∧
    s1.is_on = false ∧ s1.brightness = s.brightness := by
  cases hrt : s.reproduce_task with
  | none =>
      have hb : s.busy_set = true := by
        unfold good at hg
        rw [hrt] at hg
        simpa using hg
      rw [turnOffStart.eq_def] at h
      simp only [cancelInFlight, hrt, hb, if_true] at h
      obtain ⟨hs, ht⟩ := Prod.mk.injEq .. ▸ (Option.some.injEq .. ▸ h)
      subst hs ht
      refine ⟨by simp [good, setOff], ?_, ?_, by simp [setOff], by simp [setOff]⟩
      · simp [okFrom, pending, hrt, delta, setOff]
      · simp [sumDelta, pending, hrt, delta, setOff]
  | some tk =>
      rw [turnOffStart.eq_def] at h
      simp only [cancelInFlight, hrt] at h
      obtain ⟨hs, ht⟩ := Prod.mk.injEq .. ▸ (Option.some.injEq .. ▸ h)
      subst hs ht
      refine ⟨by simp [good, setOff], ?_, ?_, by simp [setOff], by simp [setOff]⟩
      · simp [okFrom, pending, hrt, delta, setOff]
      · simp [sumDelta, pending, hrt, delta, setOff]

theorem finishReproduce_spec (s : LS) (o : Outcome) (hg : good s) :
    good (finishReproduce s o).1 ∧ okFrom (pending s) (finishReproduce s o).2 ∧
    pending s + sumDelta (finishReproduce s o).2 = pending (finishReproduce s o).1 ∧
    (finishReproduce s o).1.is_on = s.is_on ∧
    (finishReproduce s o).1.brightness = s.brightness := by
  cases hrt : s.reproduce_task with
  | none =>
      have h1 : finishReproduce s o = (s, []) := by simp [finishReproduce, hrt]
      rw [h1]
      refine ⟨hg, trivial, ?_, rfl, rfl⟩
      simp [sumDelta]
  | some tk =>
      cases o with
      | completed =>
          have h1 : finishReproduce s Outcome.completed =
              ({ s with reproduce_task := none, busy_set := true }, [Act.taskEnd tk]) := by
            simp [finishReproduce, hrt]
          rw [h1]
          refine ⟨by simp [good], ?_, ?_, rfl, rfl⟩
          · refine ⟨?_, trivial⟩
            simp [delta, pending, hrt]
          · simp [sumDelta, delta, pending, hrt]
      | timedOut =>
          have h1 : finishReproduce s Outcome.timedOut =
              ({ s with reproduce_task := none, busy_set := true },
               [Act.timeoutWarning, Act.taskEnd tk]) := by
            simp [finishReproduce, hrt]
          rw [h1]
          refine ⟨by simp [good], ?_, ?_, rfl, rfl⟩
          · refine ⟨?_, ?_, trivial⟩ <;> simp [delta, pending, hrt]
          · simp [sumDelta, delta, pending, hrt]

theorem processStateChanged_spec (s : LS) (e : Option (Option Nat)) (hg : good s) :
    good (processStateChanged s e).1 ∧
    okFrom (pending s) (processStateChanged s e).2 ∧
    pending s + sumDelta (processStateChanged s e).2 = pending (processStateChanged s e).1 ∧
    (processStateChanged s e).1.brightness = s.brightness := by
  have hp : pending s ≤ 1 := by unfold pending; split <;> omega
  cases hbo : (!s.busy_set || !s.is_on) with
  | true =>
      have h1 : processStateChanged s e = (s, []) := by
        rw [processStateChanged.eq_def, hbo]
        simp
      rw [h1]
      refine ⟨hg, trivial, ?_, rfl⟩
      simp [sumDelta]
  | false =>
      have hignored : ∀ h1 : processStateChanged s e = (s, []),
          good (processStateChanged s e).1 ∧
          okFrom (pending s) (processStateChanged s e).2 ∧
          pending s + sumDelta (processStateChanged s e).2 =
            pending (processStateChanged s e).1 ∧
          (processStateChanged s e).1.brightness = s.brightness := by
        intro h1
        rw [h1]
        refine ⟨hg, trivial, ?_, rfl⟩
        simp [sumDelta]
      cases e with
      | none =>
          exact hignored (by rw [processStateChanged.eq_def, hbo]; simp)
      | some oc =>
          cases oc with
          | none =>
              exact hignored (by rw [processStateChanged.eq_def, hbo]; simp)
          | some tag =>
              cases hint : isInternal s tag with
              | true =>
                  refine hignored ?_
                  rw [processStateChanged.eq_def, hbo]
                  simp [hint]
              | false =>
                  have h1 : processStateChanged s (some (some tag)) =
                      (setOff s, [Act.publish false s.brightness]) := by
                    rw [processStateChanged.eq_def, hbo]
                    simp [hint]
                  rw [h1]
                  refine ⟨hg, ?_, ?_, by simp [setOff]⟩
                  · refine ⟨?_, trivial⟩
                    simp [delta]
                    omega
                  · simp [sumDelta, delta, pending, setOff]

theorem processSceneActivation_spec (sc : SceneConfig) (s : LS) (tag : Option Nat)
    (s1 : LS) (t1 : List Act) (hg : good s)
    (h : processSceneActivation sc s tag = some (s1, t1)) :
    good s1 ∧ okFrom (pending s) t1 ∧ pending s + sumDelta t1 = pending s1 ∧
    (validScene sc → s1.brightness = s.brightness ∨ s1.brightness = sceneBrightness sc) := by
  have hp : pending s ≤ 1 := by unfold pending; split <;> omega
  cases tag with
  | none =>
      rw [processSceneActivation.eq_def] at h
      simp only [Option.some.injEq, Prod.mk.injEq] at h
      obtain ⟨hs, ht⟩ := h
      subst hs ht
      refine ⟨hg, trivial, ?_, fun _ => Or.inl rfl⟩
      simp [sumDelta]
  | some tg =>
      rw [processSceneActivation.eq_def] at h
      cases hb : s.busy_set with
      | false => rw [hb] at h; simp at h
      | true =>
          rw [hb] at h
          simp only [if_true, Option.some.injEq, Prod.mk.injEq] at h
          obtain ⟨hs, ht⟩ := h
          subst hs ht
          refine ⟨?_, ?_, ?_, fun _ => Or.inr rfl⟩
          · show (true : Bool) = s.reproduce_task.isNone
            rw [← hb]
            exact hg
          · refine ⟨?_, ?_, trivial⟩ <;> simp [delta] <;> omega
          · simp [sumDelta, delta, pending]

/-- Combined per-operation invariant: operations preserve the gate/task
invariant, keep at most one reproduction in flight in their trace, account for
the in-flight task, and keep the stored brightness inside `[1, 255]`. -/
theorem runOp_spec (sc : SceneConfig) (s : LS) (op : Op) (s' : LS) (t : List Act)
    (hg : good s) (h : runOp sc s op = some (s', t)) :
    good s' ∧ okFrom (pending s) t ∧ pending s + sumDelta t = pending s' ∧
    (validScene sc → validOp op → 1 ≤ s.brightness → s.brightness ≤ 255 →
      1 ≤ s'.brightness ∧ s'.brightness ≤ 255) := by
  cases op with
  | onFull request o =>
      simp only [runOp, turnOnFull] at h
      cases hstart : turnOnStart sc s request with
      | none => rw [hstart] at h; exact absurd h (by simp)
      | some p =>
          rw [hstart] at h
          obtain ⟨s1, t1⟩ := p
          simp only at h
          obtain ⟨hs, ht⟩ := Prod.mk.injEq .. ▸ (Option.some.injEq .. ▸ h)
          obtain ⟨hg1, hok1, hpend1, _, hbr1⟩ := turnOnStart_spec sc s request s1 t1 hg hstart
          obtain ⟨hg2, hok2, hpend2, _, hbr2⟩ := finishReproduce_spec s1 o hg1
          subst hs ht
          refine ⟨hg2, ?_, ?_, ?_⟩
          · rw [okFrom_append]
            exact ⟨hok1, by rw [hpend1]; exact hok2⟩
          · rw [sumDelta_append]
            rw [← add_assoc, hpend1, hpend2]
          · intro hv hvo h1 h2
            rw [hbr2]
            exact hbr1 hv (fun b hb => by
              cases request with
              | none => exact absurd hb (by simp)
              | some b0 =>
                  cases hb
                  exact (by simpa [validOp] using hvo)) h1 h2
  | onPart request =>
      simp only [runOp] at h
      obtain ⟨hg1, hok1, hpend1, _, hbr1⟩ := turnOnStart_spec sc s request s' t hg h
      refine ⟨hg1, hok1, hpend1, ?_⟩
      intro hv hvo h1 h2
      exact hbr1 hv (fun b hb => by
        cases request with
        | none => exact absurd hb (by simp)
        | some b0 =>
            cases hb
            exact (by simpa [validOp] using hvo)) h1 h2
  | offFull o =>
      simp only [runOp, turnOffFull] at h
      cases hstart : turnOffStart sc s with
      | none => rw [hstart] at h; exact absurd h (by simp)
      | some p =>
          rw [hstart] at h
          obtain ⟨s1, t1⟩ := p
          simp only at h
          obtain ⟨hs, ht⟩ := Prod.mk.injEq .. ▸ (Option.some.injEq .. ▸ h)
          obtain ⟨hg1, hok1, hpend1, _, hbr1⟩ := turnOffStart_spec sc s s1 t1 hg hstart
          obtain ⟨hg2, hok2, hpend2, _, hbr2⟩ := finishReproduce_spec s1 o hg1
          subst hs ht
          refine ⟨hg2, ?_, ?_, ?_⟩
          · rw [okFrom_append]
            exact ⟨hok1, by rw [hpend1]; exact hok2⟩
          · rw [sumDelta_append]
            rw [← add_assoc, hpend1, hpend2]
          · intro _ _ h1 h2
            rw [hbr2, hbr1]
            exact ⟨h1, h2⟩
  | offPart =>
      simp only [runOp] at h
      obtain ⟨hg1, hok1, hpend1, _, hbr1⟩ := turnOffStart_spec sc s s' t hg h
      refine ⟨hg1, hok1, hpend1, ?_⟩
      intro _ _ h1 h2
      rw [hbr1]
      exact ⟨h1, h2⟩
  | stateEvent e =>
      simp only [runOp] at h
      have hpair : processStateChanged s e = (s', t) := by
        injection h
      obtain ⟨hg1, hok1, hpend1, hbr1⟩ := processStateChanged_spec s e hg
      rw [hpair] at hg1 hok1 hpend1 hbr1
      refine ⟨hg1, hok1, hpend1, ?_⟩
      intro _ _ h1 h2
      rw [show s'.brightness = (s', t).1.brightness from rfl, hbr1]
      exact ⟨h1, h2⟩
  | sceneActivated tag =>
      simp only [runOp] at h
      obtain ⟨hg1, hok1, hpend1, hbr1⟩ := processSceneActivation_spec sc s tag s' t hg h
      refine ⟨hg1, hok1, hpend1, ?_⟩
      intro hv _ h1 h2
      rcases hbr1 hv with hb | hb
      · rw [hb]; exact ⟨h1, h2⟩
      · rw [hb]; exact sceneBrightness_bounds sc hv

/-- Invariants over a whole operation sequence. -/
theorem runOps_spec (sc : SceneConfig) : ∀ (ops : List Op) (s s' : LS) (t : List Act),
    good s → runOps sc s ops = some (s', t) →
    good s' ∧ okFrom (pending s) t ∧ pending s + sumDelta t = pending s' ∧
    (validScene sc → (∀ op ∈ ops, validOp op) → 1 ≤ s.brightness → s.brightness ≤ 255 →
      1 ≤ s'.brightness ∧ s'.brightness ≤ 255) := by
  intro ops
  induction ops with
  | nil =>
      intro s s' t hg h
      simp only [runOps] at h
      obtain ⟨hs, ht⟩ := Prod.mk.injEq .. ▸ (Option.some.injEq .. ▸ h)
      subst hs ht
      exact ⟨hg, by simp [okFrom], by simp [sumDelta, pending], fun _ _ h1 h2 => ⟨h1, h2⟩⟩
  | cons op ops ih =>
      intro s s' t hg h
      simp only [runOps] at h
      cases h1 : runOp sc s op with
      | none => rw [h1] at h; exact absurd h (by simp)
      | some p =>
          rw [h1] at h
          obtain ⟨s1, t1⟩ := p
          simp only at h
          cases h2 : runOps sc s1 ops with
          | none => rw [h2] at h; exact absurd h (by simp)
          | some q =>
              rw [h2] at h
              obtain ⟨s2, t2⟩ := q
              simp only at h
              obtain ⟨hs, ht⟩ := Prod.mk.injEq .. ▸ (Option.some.injEq .. ▸ h)
              obtain ⟨hga, hoka, hpenda, hbra⟩ := runOp_spec sc s op s1 t1 hg h1
              obtain ⟨hgb, hokb, hpendb, hbrb⟩ := ih s1 s2 t2 hga h2
              subst hs ht
              refine ⟨hgb, ?_, ?_, ?_⟩
              · rw [okFrom_append]
                exact ⟨hoka, by rw [hpenda]; exact hokb⟩
              · rw [sumDelta_append, ← add_assoc, hpenda, hpendb]
              · intro hv hvo h1b h2b
                obtain ⟨ha1, ha2⟩ := hbra hv (hvo op (by simp)) h1b h2b
                exact hbrb hv (fun o ho => hvo o (by simp [ho])) ha1 ha2

theorem sceneBrightnessValues_nil_iff (sc : SceneConfig) :
    sceneBrightnessValues sc = [] ↔
      ¬ ∃ p ∈ sc.states, isLight p.1 = true ∧ p.2.state = STATE_ON ∧
        0 < declaredBrightness p.2 := by
  unfold sceneBrightnessValues
  rw [List.map_eq_nil_iff, List.filter_eq_nil_iff]
  constructor
  · rintro h ⟨p, hmem, h1, h2, h3⟩
    exact h p hmem (by simp [h1, h2, h3])
  · intro h p hmem hcond
    simp only [Bool.and_eq_true, beq_iff_eq, decide_eq_true_eq] at hcond
    exact h ⟨p, hmem, hcond.1.1, hcond.1.2, hcond.2⟩

/-- C3: at construction, every member whose entity id is a light gets a
per-entity baseline equal to its declared brightness if present, else 255 when
declared on, else 0; if at least one on-light has a positive baseline then the
scene supports brightness and the baseline brightness is the floor average of
exactly those positive on-light values; otherwise the scene does not support
brightness and the baseline brightness is the default 255. -/
theorem construction_baseline_spec (sc : SceneConfig) :
    (∀ p ∈ sc.states, isLight p.1 = true →
      (p.1, (match p.2.brightness with
             | some b => b
             | none => if p.2.state = STATE_ON then 255 else 0)) ∈
        sceneBrightnessLevels sc) ∧
    ((∃ p ∈ sc.states, isLight p.1 = true ∧ p.2.state = STATE_ON ∧
        0 < declaredBrightness p.2) →
      hasBrightnessControl sc = true ∧
      sceneBrightness sc =
        (sceneBrightnessValues sc).sum / (sceneBrightnessValues sc).length) ∧
    ((¬ ∃ p ∈ sc.states, isLight p.1 = true ∧ p.2.state = STATE_ON ∧
        0 < declaredBrightness p.2) →
      hasBrightnessControl sc = false ∧ sceneBrightness sc = DEFAULT_BRIGHTNESS) := by
  refine ⟨?_, ?_, ?_⟩
  · intro p hmem hl
    unfold sceneBrightnessLevels
    rw [List.mem_map]
    refine ⟨p, List.mem_filter.mpr ⟨hmem, hl⟩, ?_⟩
    show (p.1, declaredBrightness p.2) = _
    rfl
  · intro hex
    have hne : sceneBrightnessValues sc ≠ [] := by
      rw [Ne, sceneBrightnessValues_nil_iff]
      exact not_not_intro hex
    have hE : (sceneBrightnessValues sc).isEmpty = false :=
      List.isEmpty_eq_false.mpr hne
    constructor
    · unfold hasBrightnessControl
      rw [hE]
      rfl
    · unfold sceneBrightness
      rw [hE]
      rfl
  · intro hnex
    have hnil : sceneBrightnessValues sc = [] :=
      (sceneBrightnessValues_nil_iff sc).mpr hnex
    constructor
    · unfold hasBrightnessControl
      rw [hnil]
      rfl
    · unfold sceneBrightness
      rw [hnil]
      rfl

theorem construction_baseline_spec_witness :
    hasBrightnessControl demoScene = true ∧
    sceneBrightness demoScene =
      (sceneBrightnessValues demoScene).sum / (sceneBrightnessValues demoScene).length :=
  (construction_baseline_spec demoScene).2.1
    ⟨("light.a", { state := "on", brightness := some 100, otherAttrs := [] }),
      by decide, by decide, by decide, by decide⟩

/-- Exact result of `turnOnStart` from a gate-consistent state. -/
theorem turnOnStart_result (sc : SceneConfig) (s : LS) (request : Option Nat)
    (hg : good s) :
    ∃ s1, turnOnStart sc s request = some
      (s1, (cancelInFlight s).2 ++
        [Act.gateWait, Act.publish true s1.brightness,
         Act.taskStart s.next_task_id "states"
           (turnOnTargets sc (request.getD (sceneBrightness sc))),
         Act.awaitTimeout REPRODUCE_TIMEOUT_SECONDS]) ∧
      s1.brightness =
        (if hasBrightnessControl sc = true then request.getD (sceneBrightness sc)
         else s.brightness) ∧
      s1.is_on = true ∧ s1.busy_set = false ∧
      s1.reproduce_task = some s.next_task_id := by
  cases hrt : s.reproduce_task with
  | none =>
      have hbusy : s.busy_set = true := by
        unfold good at hg
        rw [hrt] at hg
        simpa using hg
      cases hbc : hasBrightnessControl sc with
      | true =>
          refine ⟨{
              is_on := true
              brightness := request.getD (sceneBrightness sc)
              context := some s.next_ctx_id
              internal_contexts := s.next_ctx_id :: s.internal_contexts
              busy_set := false
              reproduce_task := some s.next_task_id
              next_task_id := s.next_task_id + 1
              next_ctx_id := s.next_ctx_id + 1 },
            ?_, by simp, rfl, rfl, rfl⟩
          rw [turnOnStart.eq_def]
          simp only [cancelInFlight, hrt, hbusy, if_true, hbc, mintContext]
          cases request <;> simp [Option.getD]
      | false =>
          refine ⟨{
              is_on := true
              brightness := s.brightness
              context := some s.next_ctx_id
              internal_contexts := s.next_ctx_id :: s.internal_contexts
              busy_set := false
              reproduce_task := some s.next_task_id
              next_task_id := s.next_task_id + 1
              next_ctx_id := s.next_ctx_id + 1 },
            ?_, by simp [hbc], rfl, rfl, rfl⟩
          rw [turnOnStart.eq_def]
          simp only [cancelInFlight, hrt, hbusy, if_true, hbc, mintContext]
          cases request <;> simp [Option.getD]
  | some tk =>
      cases hbc : hasBrightnessControl sc with
      | true =>
          refine ⟨{
              is_on := true
              brightness := request.getD (sceneBrightness sc)
              context := some s.next_ctx_id
              internal_contexts := s.next_ctx_id :: s.internal_contexts
              busy_set := false
              reproduce_task := some s.next_task_id
              next_task_id := s.next_task_id + 1
              next_ctx_id := s.next_ctx_id + 1 },
            ?_, by simp, rfl, rfl, rfl⟩
          rw [turnOnStart.eq_def]
          simp only [cancelInFlight, hrt, hbc, mintContext]
          cases request <;> simp [Option.getD]
      | false =>
          refine ⟨{
              is_on := true
              brightness := s.brightness
              context := some s.next_ctx_id
              internal_contexts := s.next_ctx_id :: s.internal_contexts
              busy_set := false
              reproduce_task := some s.next_task_id
              next_task_id := s.next_task_id + 1
              next_ctx_id := s.next_ctx_id + 1 },
            ?_, by simp [hbc], rfl, rfl, rfl⟩
          rw [turnOnStart.eq_def]
          simp only [cancelInFlight, hrt, hbc, mintContext]
          cases request <;> simp [Option.getD]

/-- Exact result of `turnOffStart` from a gate-consistent state. -/
theorem turnOffStart_result (sc : SceneConfig) (s : LS) (hg : good s) :
    ∃ s1, turnOffStart sc s = some
      (s1, (cancelInFlight s).2 ++
        [Act.gateWait, Act.publish false s.brightness,
         Act.taskStart s.next_task_id "off states" (turnOffTargets sc),
         Act.awaitTimeout REPRODUCE_TIMEOUT_SECONDS]) ∧
      s1.is_on = false ∧ s1.brightness = s.brightness ∧ s1.busy_set = false ∧
      s1.reproduce_task = some s.next_task_id ∧ s1.internal_contexts = [] := by
  cases hrt : s.reproduce_task with
  | none =>
      have hbusy : s.busy_set = true := by
        unfold good at hg
        rw [hrt] at hg
        simpa using hg
      refine ⟨{
          is_on := false
          brightness := s.brightness
          context := s.context
          internal_contexts := []
          busy_set := false
          reproduce_task := some s.next_task_id
          next_task_id := s.next_task_id + 1
          next_ctx_id := s.next_ctx_id },
        ?_, rfl, rfl, rfl, rfl, rfl⟩
      rw [turnOffStart.eq_def]
      simp [cancelInFlight, hrt, hbusy, setOff]
  | some tk =>
      refine ⟨{
          is_on := false
          brightness := s.brightness
          context := s.context
          internal_contexts := []
          busy_set := false
          reproduce_task := some s.next_task_id
          next_task_id := s.next_task_id + 1
          next_ctx_id := s.next_ctx_id },
        ?_, rfl, rfl, rfl, rfl, rfl⟩
      rw [turnOffStart.eq_def]
      simp [cancelInFlight, hrt, setOff]

/-- C4 fails as stated: on `demoScene` (member baselines 100 and 200, scene
baseline 150), `turn_on(100)` gives `light.a` the truncated value
`int(100 * (100/150)) = 66`, while rounding as the claim states gives
`round(66.66…) = 67`. -/
theorem turn_on_scaling_counterexample :
    turnOnTargets demoScene 100 =
      [TargetState.mk "light.a" "on" (some 66) [],
       TargetState.mk "light.b" "on" (some 133) []] ∧
    levelFor demoScene "light.a" = 100 ∧ sceneBrightness demoScene = 150 ∧
    specRoundScaled 100 100 150 = 67 ∧ (66 : Nat) ≠ 67 := by
  refine ⟨by decide, by decide, by decide, ?_, by decide⟩
  unfold specRoundScaled
  push_cast
  rw [show (100 : ℚ) * 100 / 150 + 1 / 2 = 403 / 6 by norm_num]
  rw [Int.floor_eq_iff]
  norm_num

/-- C4 (amended): for a brightness-capable scene and requested brightness `b`,
every member light with positive per-entity baseline gets target brightness
`int(baseline × b / scene_baseline)` (truncation toward zero of the exact
product, not rounding) clamped to `[1, 255]`; members with zero baseline and
non-light members keep their declared state and attributes; in particular on
`demoScene` (baselines 100 and 200, scene baseline 150), `turn_on(75)` yields
scaled targets 50 and 100. -/
theorem turn_on_scaling_spec (sc : SceneConfig) (b : Nat)
    (hb : hasBrightnessControl sc = true) :
    (∀ p ∈ sc.states, isLight p.1 = true → 0 < levelFor sc p.1 →
      TargetState.mk p.1 p.2.state
        (some (max 1 (min 255 (levelFor sc p.1 * b / sceneBrightness sc))))
        p.2.otherAttrs ∈ turnOnTargets sc b) ∧
    (∀ p ∈ sc.states, isLight p.1 = false ∨ levelFor sc p.1 = 0 →
      TargetState.mk p.1 p.2.state p.2.brightness p.2.otherAttrs ∈
        turnOnTargets sc b) ∧
    turnOnTargets demoScene 75 =
      [TargetState.mk "light.a" "on" (some 50) [],
       TargetState.mk "light.b" "on" (some 100) []] := by
  refine ⟨?_, ?_, by decide⟩
  · intro p hmem hl hlev
    unfold turnOnTargets
    rw [List.mem_map]
    refine ⟨p, hmem, ?_⟩
    rw [if_pos (by simp [hb, hl, hlev])]
    rfl
  · intro p hmem hcase
    unfold turnOnTargets
    rw [List.mem_map]
    refine ⟨p, hmem, ?_⟩
    have hcond : ¬(hasBrightnessControl sc && isLight p.1 &&
        decide (0 < levelFor sc p.1)) = true := by
      rcases hcase with h | h <;> simp [h]
    rw [if_neg hcond]

theorem turn_on_scaling_spec_witness :
    TargetState.mk "light.a" "on"
        (some (max 1 (min 255 (levelFor demoScene "light.a" * 75 / sceneBrightness demoScene))))
        [] ∈ turnOnTargets demoScene 75 :=
  (turn_on_scaling_spec demoScene 75 (by decide)).1
    ("light.a", { state := "on", brightness := some 100, otherAttrs := [] })
    (by decide) (by decide) (by decide)

/-- C9: from construction on, the stored brightness stays in `[1, 255]` across
every operation sequence whose requested brightness values are in the platform
range, and the baseline brightness is positive whenever the scene supports
brightness. -/
theorem brightness_range_invariant (sc : SceneConfig) (hv : validScene sc) :
    (1 ≤ (initLS sc).brightness ∧ (initLS sc).brightness ≤ 255) ∧
    (hasBrightnessControl sc = true → 0 < sceneBrightness sc) ∧
    (∀ ops s' t, (∀ op ∈ ops, validOp op) →
      runOps sc (initLS sc) ops = some (s', t) →
      1 ≤ s'.brightness ∧ s'.brightness ≤ 255) := by
  have hb := sceneBrightness_bounds sc hv
  refine ⟨⟨hb.1, hb.2⟩, fun h => sceneBrightness_pos sc h, ?_⟩
  intro ops s' t hops h
  have hgood : good (initLS sc) := rfl
  obtain ⟨_, _, _, hbr⟩ := runOps_spec sc ops (initLS sc) s' t hgood h
  exact hbr hv hops hb.1 hb.2

theorem brightness_range_invariant_witness :
    1 ≤ (LS.mk true 75 (some 0) [0] true none 1 1).brightness ∧
    (LS.mk true 75 (some 0) [0] true none 1 1).brightness ≤ 255 :=
  (brightness_range_invariant demoScene (by decide)).2.2
    [Op.onFull (some 75) Outcome.completed]
    (LS.mk true 75 (some 0) [0] true none 1 1)
    [Act.gateWait, Act.publish true 75,
     Act.taskStart 0 "states" (turnOnTargets demoScene 75),
     Act.awaitTimeout 60, Act.taskEnd 0]
    (by decide) (by decide)

/-- C10: a brightness-capable scene turned on with no requested brightness uses
the baseline as target: the stored brightness becomes the baseline (whatever it
was before), the reproduction is started with the targets scaled by factor 1,
and each positive-baseline light in range reproduces its literal scene
brightness. -/
theorem turn_on_default_brightness (sc : SceneConfig)
    (hb : hasBrightnessControl sc = true) :
    (∀ s s1 t1, good s → turnOnStart sc s none = some (s1, t1) →
      s1.brightness = sceneBrightness sc ∧
      Act.taskStart s.next_task_id "states" (turnOnTargets sc (sceneBrightness sc)) ∈ t1) ∧
    (∀ p ∈ sc.states, isLight p.1 = true → 1 ≤ levelFor sc p.1 →
      levelFor sc p.1 ≤ 255 →
      TargetState.mk p.1 p.2.state (some (levelFor sc p.1)) p.2.otherAttrs ∈
        turnOnTargets sc (sceneBrightness sc)) := by
  constructor
  · intro s s1 t1 hg h
    obtain ⟨s1', heq, hbr, _, _, _⟩ := turnOnStart_result sc s none hg
    rw [h] at heq
    obtain ⟨hs, ht⟩ := Prod.mk.injEq .. ▸ (Option.some.injEq .. ▸ heq)
    subst hs
    constructor
    · rw [hbr]
      simp [hb, Option.getD]
    · rw [ht]
      simp [Option.getD]
  · intro p hmem hl h1 h255
    unfold turnOnTargets
    rw [List.mem_map]
    refine ⟨p, hmem, ?_⟩
    rw [if_pos (by simp [hb, hl]; omega)]
    have hpos := sceneBrightness_pos sc hb
    have hcancel : levelFor sc p.1 * sceneBrightness sc / sceneBrightness sc =
        levelFor sc p.1 := Nat.mul_div_cancel _ hpos
    show TargetState.mk p.1 p.2.state
        (some (scaledBrightness (levelFor sc p.1) (sceneBrightness sc) (sceneBrightness sc)))
        p.2.otherAttrs = _
    unfold scaledBrightness
    rw [hcancel]
    congr 2
    omega

theorem turn_on_default_brightness_witness :
    TargetState.mk "light.a" "on" (some (levelFor demoScene "light.a")) [] ∈
      turnOnTargets demoScene (sceneBrightness demoScene) :=
  (turn_on_default_brightness demoScene (by decide)).2
    ("light.a", { state := "on", brightness := some 100, otherAttrs := [] })
    (by decide) (by decide) (by decide) (by decide)

theorem isInternal_false_iff (s : LS) (tag : Nat) :
    isInternal s tag = false ↔ s.context ≠ some tag ∧ tag ∉ s.internal_contexts := by
  unfold isInternal
  cases hc : s.context <;> simp [hc]

/-- C2: while the entity is on and no reproduction is in flight, a member
state-change event carrying causation tag `tag` turns the entity off (clearing
the self-caused set and publishing) exactly when the tag is neither the active
context nor in the self-caused set; any event arriving while the entity is off
or while the busy gate is cleared leaves the state unchanged. -/
theorem state_changed_event_spec (s : LS) (e : Option (Option Nat)) :
    (∀ tag, s.busy_set = true → s.is_on = true → e = some (some tag) →
      (processStateChanged s e =
          (setOff s, [Act.publish false s.brightness]) ↔
        (s.context ≠ some tag ∧ tag ∉ s.internal_contexts))) ∧
    (s.busy_set = false ∨ s.is_on = false → processStateChanged s e = (s, [])) := by
  constructor
  · intro tag hbusy hon he
    subst he
    have hguard : (!s.busy_set || !s.is_on) = false := by simp [hbusy, hon]
    constructor
    · intro hres
      rw [← isInternal_false_iff]
      cases hint : isInternal s tag with
      | false => rfl
      | true =>
          rw [processStateChanged.eq_def, hguard] at hres
          simp only [Bool.false_eq_true, if_false, hint, if_true] at hres
          have := congrArg Prod.snd hres
          simp at this
    · intro hext
      have hint : isInternal s tag = false := (isInternal_false_iff s tag).mpr hext
      rw [processStateChanged.eq_def, hguard]
      simp [hint]
  · intro hcase
    have hguard : (!s.busy_set || !s.is_on) = true := by
      rcases hcase with h | h <;> simp [h]
    rw [processStateChanged.eq_def, hguard]
    simp

theorem state_changed_event_spec_witness :
    processStateChanged (LS.mk true 150 (some 5) [5] true none 0 0) (some (some 7)) =
      (setOff (LS.mk true 150 (some 5) [5] true none 0 0), [Act.publish false 150]) :=
  ((state_changed_event_spec (LS.mk true 150 (some 5) [5] true none 0 0)
      (some (some 7))).1 7 rfl rfl rfl).mpr (by decide)

/-- C8: a scene-activation event with a causation context, processed after the
busy gate, adopts the tag as active and self-caused, turns the entity on at
baseline brightness and publishes; it does not start any reproduction. -/
theorem scene_activation_spec (sc : SceneConfig) (s : LS) (tag : Nat)
    (hb : s.busy_set = true) :
    ∃ s1, processSceneActivation sc s (some tag) =
        some (s1, [Act.gateWait, Act.publish true (sceneBrightness sc)]) ∧
      s1.context = some tag ∧ s1.internal_contexts = tag :: s.internal_contexts ∧
      s1.is_on = true ∧ s1.brightness = sceneBrightness sc ∧
      s1.reproduce_task = s.reproduce_task ∧
      (∀ a ∈ [Act.gateWait, Act.publish true (sceneBrightness sc)],
        isTaskStart a = false) := by
  refine ⟨LS.mk true (sceneBrightness sc) (some tag) (tag :: s.internal_contexts)
      s.busy_set s.reproduce_task s.next_task_id s.next_ctx_id,
    ?_, rfl, rfl, rfl, rfl, rfl, ?_⟩
  · rw [processSceneActivation.eq_def]
    simp [hb]
  · intro a ha
    rcases List.mem_cons.mp ha with h | h
    · rw [h]; rfl
    · rcases List.mem_cons.mp h with h2 | h2
      · rw [h2]; rfl
      · exact absurd h2 (List.not_mem_nil a)

theorem scene_activation_spec_witness :
    (processSceneActivation demoScene (initLS demoScene) (some 9)).isSome = true := by
  obtain ⟨s1, heq, _⟩ := scene_activation_spec demoScene (initLS demoScene) 9 rfl
  rw [heq]
  rfl

theorem cancelInFlight_acts (s : LS) :
    ∀ a ∈ (cancelInFlight s).2, isTaskStart a = false ∧ isPublish a = false := by
  cases h : s.reproduce_task with
  | none => simp [cancelInFlight, h]
  | some tk =>
      intro a ha
      simp only [cancelInFlight, h, List.mem_cons, List.not_mem_nil, or_false] at ha
      rcases ha with rfl | rfl <;> exact ⟨rfl, rfl⟩

/-- C1: every `turn_on`/`turn_off` invocation first cancels and drains any
in-flight reproduce task, then waits on the busy gate, and only after that
publishes or starts its own reproduction; consequently over every operation
sequence from construction at most one reproduction is in flight at any
instant. -/
theorem reproduction_serialization (sc : SceneConfig) :
    (∀ s request s1 t1, good s → turnOnStart sc s request = some (s1, t1) →
      ∃ rest, t1 = (cancelInFlight s).2 ++ Act.gateWait :: rest ∧
        (cancelInFlight s).1.reproduce_task = none ∧
        (∀ a ∈ (cancelInFlight s).2, isTaskStart a = false ∧ isPublish a = false) ∧
        rest.any isTaskStart = true) ∧
    (∀ s s1 t1, good s → turnOffStart sc s = some (s1, t1) →
      ∃ rest, t1 = (cancelInFlight s).2 ++ Act.gateWait :: rest ∧
        (cancelInFlight s).1.reproduce_task = none ∧
        (∀ a ∈ (cancelInFlight s).2, isTaskStart a = false ∧ isPublish a = false) ∧
        rest.any isTaskStart = true) ∧
    (∀ ops s' t, runOps sc (initLS sc) ops = some (s', t) → okFrom 0 t) := by
  refine ⟨?_, ?_, ?_⟩
  · intro s request s1 t1 hg h
    obtain ⟨s1', heq, _, _, _, _⟩ := turnOnStart_result sc s request hg
    rw [h] at heq
    obtain ⟨hs, ht⟩ := Prod.mk.injEq .. ▸ (Option.some.injEq .. ▸ heq)
    subst hs
    refine ⟨[Act.publish true s1.brightness,
        Act.taskStart s.next_task_id "states"
          (turnOnTargets sc (request.getD (sceneBrightness sc))),
        Act.awaitTimeout REPRODUCE_TIMEOUT_SECONDS],
      ht, cancelInFlight_task s, cancelInFlight_acts s, rfl⟩
  · intro s s1 t1 hg h
    obtain ⟨s1', heq, _, hbr, _, _, _⟩ := turnOffStart_result sc s hg
    rw [h] at heq
    obtain ⟨hs, ht⟩ := Prod.mk.injEq .. ▸ (Option.some.injEq .. ▸ heq)
    subst hs
    refine ⟨[Act.publish false s.brightness,
        Act.taskStart s.next_task_id "off states" (turnOffTargets sc),
        Act.awaitTimeout REPRODUCE_TIMEOUT_SECONDS],
      ht, cancelInFlight_task s, cancelInFlight_acts s, rfl⟩
  · intro ops s' t h
    obtain ⟨_, hok, _, _⟩ := runOps_spec sc ops (initLS sc) s' t rfl h
    exact hok

theorem reproduction_serialization_witness :
    okFrom 0 [Act.gateWait, Act.publish true 75,
      Act.taskStart 0 "states" (turnOnTargets demoScene 75), Act.awaitTimeout 60,
      Act.cancelDrain 0, Act.taskEnd 0, Act.gateWait, Act.publish false 75,
      Act.taskStart 1 "off states" (turnOffTargets demoScene), Act.awaitTimeout 60,
      Act.taskEnd 1] :=
  (reproduction_serialization demoScene).2.2
    [Op.onPart (some 75), Op.offFull Outcome.completed]
    (LS.mk false 75 (some 0) [] true none 2 1)
    [Act.gateWait, Act.publish true 75,
      Act.taskStart 0 "states" (turnOnTargets demoScene 75), Act.awaitTimeout 60,
      Act.cancelDrain 0, Act.taskEnd 0, Act.gateWait, Act.publish false 75,
      Act.taskStart 1 "off states" (turnOffTargets demoScene), Act.awaitTimeout 60,
      Act.taskEnd 1]
    (by decide)

theorem publishBeforeStart_cons (a : Act) (t : List Act) (flag : Bool)
    (ha : isTaskStart a = false) (h : publishBeforeStart t flag) :
    publishBeforeStart (a :: t) flag := by
  intro j b hj hb
  cases j with
  | zero =>
      rw [List.getElem?_cons_zero] at hj
      cases hj
      rw [ha] at hb
      cases hb
  | succ j =>
      rw [List.getElem?_cons_succ] at hj
      obtain ⟨i, c, hij, hi⟩ := h j b hj hb
      exact ⟨i + 1, c, by omega, by rwa [List.getElem?_cons_succ]⟩

theorem publishBeforeStart_head (flag : Bool) (b : Nat) (t : List Act) :
    publishBeforeStart (Act.publish flag b :: t) flag := by
  intro j c hj hc
  cases j with
  | zero =>
      rw [List.getElem?_cons_zero] at hj
      cases hj
      cases hc
  | succ j =>
      exact ⟨0, b, by omega, List.getElem?_cons_zero⟩

/-- C6: in every `turn_on` execution the optimistic publish of the on state
happens strictly before the reproduction task is started, and in every
`turn_off` execution the publish of the off state happens strictly before the
off-reproduction task is started. -/
theorem optimistic_publish_ordering (sc : SceneConfig) :
    (∀ s request o s' t, good s → turnOnFull sc s request o = some (s', t) →
      publishBeforeStart t true) ∧
    (∀ s o s' t, good s → turnOffFull sc s o = some (s', t) →
      publishBeforeStart t false) := by
  constructor
  · intro s request o s' t hg h
    obtain ⟨s1, heq, _, _, _, _⟩ := turnOnStart_result sc s request hg
    rw [turnOnFull.eq_def, heq] at h
    simp only [Option.some.injEq, Prod.mk.injEq] at h
    obtain ⟨_, ht⟩ := h
    rw [← ht]
    cases hrt : s.reproduce_task with
    | none =>
        simp only [cancelInFlight, hrt, List.nil_append, List.cons_append]
        exact publishBeforeStart_cons _ _ _ rfl (publishBeforeStart_head _ _ _)
    | some tk =>
        simp only [cancelInFlight, hrt, List.cons_append, List.nil_append]
        exact publishBeforeStart_cons _ _ _ rfl (publishBeforeStart_cons _ _ _ rfl
          (publishBeforeStart_cons _ _ _ rfl (publishBeforeStart_head _ _ _)))
  · intro s o s' t hg h
    obtain ⟨s1, heq, _, _, _, _, _⟩ := turnOffStart_result sc s hg
    rw [turnOffFull.eq_def, heq] at h
    simp only [Option.some.injEq, Prod.mk.injEq] at h
    obtain ⟨_, ht⟩ := h
    rw [← ht]
    cases hrt : s.reproduce_task with
    | none =>
        simp only [cancelInFlight, hrt, List.nil_append, List.cons_append]
        exact publishBeforeStart_cons _ _ _ rfl (publishBeforeStart_head _ _ _)
    | some tk =>
        simp only [cancelInFlight, hrt, List.cons_append, List.nil_append]
        exact publishBeforeStart_cons _ _ _ rfl (publishBeforeStart_cons _ _ _ rfl
          (publishBeforeStart_cons _ _ _ rfl (publishBeforeStart_head _ _ _)))

theorem optimistic_publish_ordering_witness :
    publishBeforeStart [Act.gateWait, Act.publish true 75,
      Act.taskStart 0 "states" (turnOnTargets demoScene 75), Act.awaitTimeout 60,
      Act.taskEnd 0] true :=
  (optimistic_publish_ordering demoScene).1 (initLS demoScene) (some 75)
    Outcome.completed (LS.mk true 75 (some 0) [0] true none 1 1)
    [Act.gateWait, Act.publish true 75,
      Act.taskStart 0 "states" (turnOnTargets demoScene 75), Act.awaitTimeout 60,
      Act.taskEnd 0]
    rfl (by decide)

theorem turnOff_ends_off_aux (sc : SceneConfig) (s1 : LS) (hg1 : good s1)
    (o2 : Outcome) :
    (∃ s2 t2, turnOffFull sc s1 o2 = some (s2, t2) ∧ s2.is_on = false) ∧
    (∀ s2 t2, turnOffStart sc s1 = some (s2, t2) → s2.is_on = false) := by
  obtain ⟨sB, heqB, honB, _, hbusyB, htaskB, _⟩ := turnOffStart_result sc s1 hg1
  have hgB : good sB := by
    unfold good
    rw [hbusyB, htaskB]
    rfl
  rcases hfin : finishReproduce sB o2 with ⟨sF, tF⟩
  have honF : sF.is_on = sB.is_on := by
    have h := (finishReproduce_spec sB o2 hgB).2.2.2.1
    rwa [hfin] at h
  constructor
  · refine ⟨sF, ((cancelInFlight s1).2 ++
        [Act.gateWait, Act.publish false s1.brightness,
         Act.taskStart s1.next_task_id "off states" (turnOffTargets sc),
         Act.awaitTimeout REPRODUCE_TIMEOUT_SECONDS]) ++ tF,
      ?_, by rw [honF, honB]⟩
    rw [turnOffFull.eq_def, heqB]
    simp only [hfin]
  · intro s2 t2 h2
    rw [heqB] at h2
    obtain ⟨hs, _⟩ := Prod.mk.injEq .. ▸ (Option.some.injEq .. ▸ h2)
    rw [← hs]
    exact honB

/-- C5: `turn_on(b)` immediately followed by `turn_off()` always ends with
`is_on = false`, whether the on-reproduction completed, timed out, or is still
in flight when `turn_off` arrives (in which case it is cancelled and drained);
this holds already when `turn_off` publishes and also after its own
reproduction finishes. -/
theorem turn_on_off_round_trip (sc : SceneConfig) (s : LS) (request : Option Nat)
    (o o2 : Outcome) (hg : good s) :
    (∀ s1 t1, turnOnFull sc s request o = some (s1, t1) →
      (∃ s2 t2, turnOffFull sc s1 o2 = some (s2, t2) ∧ s2.is_on = false) ∧
      (∀ s2 t2, turnOffStart sc s1 = some (s2, t2) → s2.is_on = false)) ∧
    (∀ s1 t1, turnOnStart sc s request = some (s1, t1) →
      (∃ s2 t2, turnOffFull sc s1 o2 = some (s2, t2) ∧ s2.is_on = false) ∧
      (∀ s2 t2, turnOffStart sc s1 = some (s2, t2) → s2.is_on = false)) := by
  constructor
  · intro s1 t1 h
    have hg1 : good s1 := by
      rw [turnOnFull.eq_def] at h
      cases hstart : turnOnStart sc s request with
      | none => rw [hstart] at h; cases h
      | some p =>
          obtain ⟨sA, tA⟩ := p
          rw [hstart] at h
          rcases hfin : finishReproduce sA o with ⟨sF, tF⟩
          simp only [hfin, Option.some.injEq, Prod.mk.injEq] at h
          obtain ⟨hs, _⟩ := h
          have hgA := (turnOnStart_spec sc s request sA tA hg hstart).1
          have hgF := (finishReproduce_spec sA o hgA).1
          rw [hfin] at hgF
          rw [← hs]
          exact hgF
    exact turnOff_ends_off_aux sc s1 hg1 o2
  · intro s1 t1 h
    have hg1 := (turnOnStart_spec sc s request s1 t1 hg h).1
    exact turnOff_ends_off_aux sc s1 hg1 o2

theorem turn_on_off_round_trip_witness :
    (LS.mk false 75 (some 0) [] false (some 1) 2 1).is_on = false :=
  ((turn_on_off_round_trip demoScene (initLS demoScene) (some 75) Outcome.completed
      Outcome.completed rfl).1
    (LS.mk true 75 (some 0) [0] true none 1 1)
    [Act.gateWait, Act.publish true 75,
      Act.taskStart 0 "states" (turnOnTargets demoScene 75), Act.awaitTimeout 60,
      Act.taskEnd 0]
    (by decide)).2
    (LS.mk false 75 (some 0) [] false (some 1) 2 1)
    [Act.gateWait, Act.publish false 75,
      Act.taskStart 1 "off states" (turnOffTargets demoScene), Act.awaitTimeout 60]
    (by decide)

/-- Does every reproduce-task start in the trace immediately await with the
configured timeout? -/
def startFollowedByTimeout : List Act → Bool
  | [] => true
  | Act.taskStart _ _ _ :: rest =>
      (match rest with
       | Act.awaitTimeout n :: _ => decide (n = REPRODUCE_TIMEOUT_SECONDS)
       | _ => false) && startFollowedByTimeout rest
  | _ :: rest => startFollowedByTimeout rest

/-- C7: every reproduction started by the controller — by `turn_on` and by
`turn_off` alike — is awaited under the 60-second timeout; when it times out, a
warning is logged, the task is cancelled and drained, the busy gate is
released, the optimistically published state (on or off, with its brightness)
is not reverted, and a subsequent `turn_on` proceeds without deadlock. -/
theorem reproduce_timeout_spec (sc : SceneConfig) (s : LS)
    (request request2 : Option Nat) (hg : good s) :
    REPRODUCE_TIMEOUT_SECONDS = 60 ∧
    (∀ s1 t1, turnOnStart sc s request = some (s1, t1) →
      startFollowedByTimeout t1 = true ∧
      Act.timeoutWarning ∈ (finishReproduce s1 Outcome.timedOut).2 ∧
      (finishReproduce s1 Outcome.timedOut).1.reproduce_task = none ∧
      (finishReproduce s1 Outcome.timedOut).1.busy_set = true ∧
      (finishReproduce s1 Outcome.timedOut).1.is_on = true ∧
      (finishReproduce s1 Outcome.timedOut).1.brightness = s1.brightness ∧
      (turnOnStart sc (finishReproduce s1 Outcome.timedOut).1 request2).isSome = true) ∧
    (∀ s1 t1, turnOffStart sc s = some (s1, t1) →
      startFollowedByTimeout t1 = true ∧
      Act.timeoutWarning ∈ (finishReproduce s1 Outcome.timedOut).2 ∧
      (finishReproduce s1 Outcome.timedOut).1.reproduce_task = none ∧
      (finishReproduce s1 Outcome.timedOut).1.busy_set = true ∧
      (finishReproduce s1 Outcome.timedOut).1.is_on = false ∧
      (finishReproduce s1 Outcome.timedOut).1.brightness = s1.brightness ∧
      (turnOnStart sc (finishReproduce s1 Outcome.timedOut).1 request2).isSome = true) := by
  refine ⟨rfl, ?_, ?_⟩
  · intro s1 t1 h
    obtain ⟨s1', heq, _, hon, _, htask1⟩ := turnOnStart_result sc s request hg
    rw [h] at heq
    obtain ⟨hs, ht⟩ := Prod.mk.injEq .. ▸ (Option.some.injEq .. ▸ heq)
    subst hs
    have hfin : finishReproduce s1 Outcome.timedOut =
        ({ s1 with reproduce_task := none, busy_set := true },
         [Act.timeoutWarning, Act.taskEnd s.next_task_id]) := by
      simp [finishReproduce, htask1]
    refine ⟨?_, ?_, ?_, ?_, ?_, ?_, ?_⟩
    · rw [ht]
      cases hrt : s.reproduce_task <;>
        simp [cancelInFlight, hrt, startFollowedByTimeout]
    · rw [hfin]
      simp
    · rw [hfin]
    · rw [hfin]
    · rw [hfin]
      exact hon
    · rw [hfin]
    · have hgF : good ({ s1 with reproduce_task := none, busy_set := true } : LS) := rfl
      obtain ⟨s2, heq2, _⟩ := turnOnStart_result sc _ request2 hgF
      rw [hfin, heq2]
      rfl
  · intro s1 t1 h
    obtain ⟨s1', heq, hoff, _, _, htask1, _⟩ := turnOffStart_result sc s hg
    rw [h] at heq
    obtain ⟨hs, ht⟩ := Prod.mk.injEq .. ▸ (Option.some.injEq .. ▸ heq)
    subst hs
    have hfin : finishReproduce s1 Outcome.timedOut =
        ({ s1 with reproduce_task := none, busy_set := true },
         [Act.timeoutWarning, Act.taskEnd s.next_task_id]) := by
      simp [finishReproduce, htask1]
    refine ⟨?_, ?_, ?_, ?_, ?_, ?_, ?_⟩
    · rw [ht]
      cases hrt : s.reproduce_task <;>
        simp [cancelInFlight, hrt, startFollowedByTimeout]
    · rw [hfin]
      simp
    · rw [hfin]
    · rw [hfin]
    · rw [hfin]
      exact hoff
    · rw [hfin]
    · have hgF : good ({ s1 with reproduce_task := none, busy_set := true } : LS) := rfl
      obtain ⟨s2, heq2, _⟩ := turnOnStart_result sc _ request2 hgF
      rw [hfin, heq2]
      rfl

theorem reproduce_timeout_spec_witness :
    (finishReproduce (LS.mk true 75 (some 0) [0] false (some 0) 1 1)
        Outcome.timedOut).1.busy_set = true ∧
    (finishReproduce (LS.mk false 150 none [] false (some 0) 1 0)
        Outcome.timedOut).1.is_on = false :=
  ⟨((reproduce_timeout_spec demoScene (initLS demoScene) (some 75) none rfl).2.1
      (LS.mk true 75 (some 0) [0] false (some 0) 1 1)
      [Act.gateWait, Act.publish true 75,
        Act.taskStart 0 "states" (turnOnTargets demoScene 75), Act.awaitTimeout 60]
      (by decide)).2.2.2.1,
    ((reproduce_timeout_spec demoScene (initLS demoScene) (some 75) none rfl).2.2
      (LS.mk false 150 none [] false (some 0) 1 0)
      [Act.gateWait, Act.publish false 150,
        Act.taskStart 0 "off states" (turnOffTargets demoScene), Act.awaitTimeout 60]
      (by decide)).2.2.2.2.1⟩

end Lightscene
